import Mathlib

/-!
Shallow embedding of `manila/share/driver.py` (share driver contract,
resilient executor, network allocation coordinator, capability cache),
with proofs of the specified properties.
-/

set_option linter.unusedVariables false

/-- Exception classes that the execution primitive can raise.
`processExecutionError` models `exception.ProcessExecutionError` (the
transient class); `other name` models any other exception class. -/
inductive Exc where
  | processExecutionError
  | other (name : String)
deriving DecidableEq, Repr

/-- Result of `ExecuteMixin._try_execute`: the returned value or the
propagated exception, together with the number of invocations of the
underlying `_execute` primitive and the list of `time.sleep` durations
performed (in order). -/
structure TryExecResult where
  result : Except Exc Bool
  invocations : Nat
  sleeps : List Nat
deriving Repr

/-- Opaque configuration object: the options this core consumes. -/
structure Configuration where
  num_shell_tries : Nat
  reserved_share_percentage : Int
  share_backend_name : Option String
  network_config_group : Option String
deriving DecidableEq, Repr

namespace ExecuteMixin

/-- The `while True` loop body of `_try_execute`.  `execute i` is the
outcome of the i-th invocation of `self._execute` (`none` = success,
`some e` = raises `e`); `tries` is the loop counter (equal to the
invocation index, since the loop re-invokes only after a transient
failure that incremented `tries`).  `fuel` bounds the recursion; the
top-level call passes `fuel = num_shell_tries`, which is never
exhausted because the loop raises once `tries + 1 ≥ num_shell_tries`. -/
def try_execute_go (execute : Nat → Option Exc) (num_shell_tries : Nat) :
    Nat → Nat → TryExecResult
  | fuel, tries =>
    match execute tries with
    | none => ⟨Except.ok true, tries + 1, []⟩
    | some Exc.processExecutionError =>
      if tries + 1 ≥ num_shell_tries then
        ⟨Except.error Exc.processExecutionError, tries + 1, []⟩
      else
        match fuel with
        | 0 => ⟨Except.error Exc.processExecutionError, tries + 1, []⟩
        | fuel' + 1 =>
          let r := try_execute_go execute num_shell_tries fuel' (tries + 1)
          ⟨r.result, r.invocations, (tries + 1) ^ 2 :: r.sleeps⟩
    | some (Exc.other name) => ⟨Except.error (Exc.other name), tries + 1, []⟩

/-- `ExecuteMixin._try_execute`: retries `self._execute` on
`ProcessExecutionError` up to `configuration.num_shell_tries` total
attempts, sleeping `tries ** 2` before each retry; returns `True` on
success; any other exception propagates immediately. -/
def try_execute (configuration : Configuration) (execute : Nat → Option Exc) :
    TryExecResult :=
  try_execute_go execute configuration.num_shell_tries configuration.num_shell_tries 0

end ExecuteMixin

/-- Typed failure for calling an abstract operation without override:
Python `raise NotImplementedError()`. -/
inductive DriverError where
  | notImplementedError
deriving DecidableEq, Repr

/-- Failure of reading `self._stats` when the attribute was never
assigned (Python `AttributeError`). -/
inductive StatsError where
  | attributeError
deriving DecidableEq, Repr

/-- The capability snapshot dictionary built by `_update_share_status`. -/
structure Stats where
  share_backend_name : String
  vendor_name : String
  driver_version : String
  storage_protocol : Option String
  total_capacity_gb : String
  free_capacity_gb : String
  reserved_percentage : Int
  QoS_support : Bool
deriving DecidableEq, Repr

/-- Mutable state of a `ShareDriver` instance: its configuration and the
`_stats` attribute (`none` while the attribute has never been assigned,
as after `__init__`, which does not set it). -/
structure ShareDriverState where
  configuration : Configuration
  stats : Option Stats
deriving DecidableEq, Repr

/-- A call made to the external `network_api` collaborator, recording
the arguments forwarded to it. -/
inductive NetworkApiCall (α β γ δ : Type) where
  | allocate (context : α) (share_server : β) (share_network : γ) (count : Nat)
  | deallocate (context : α) (share_server_id : δ)
deriving DecidableEq, Repr

namespace ShareDriver

/-- `ShareDriver.__init__`: stores the configuration; it never assigns
`self._stats`. -/
def init (configuration : Configuration) : ShareDriverState :=
  { configuration := configuration, stats := none }

/-- `ShareDriver.create_share`: abstract, raises `NotImplementedError`. -/
def create_share (s : ShareDriverState) (context share : Nat)
    (share_server : Option Nat) : Except DriverError Unit :=
  Except.error DriverError.notImplementedError

/-- `ShareDriver.create_share_from_snapshot`: abstract. -/
def create_share_from_snapshot (s : ShareDriverState) (context share snapshot : Nat)
    (share_server : Option Nat) : Except DriverError Unit :=
  Except.error DriverError.notImplementedError

/-- `ShareDriver.create_snapshot`: abstract. -/
def create_snapshot (s : ShareDriverState) (context snapshot : Nat)
    (share_server : Option Nat) : Except DriverError Unit :=
  Except.error DriverError.notImplementedError

/-- `ShareDriver.delete_share`: abstract. -/
def delete_share (s : ShareDriverState) (context share : Nat)
    (share_server : Option Nat) : Except DriverError Unit :=
  Except.error DriverError.notImplementedError

/-- `ShareDriver.delete_snapshot`: abstract. -/
def delete_snapshot (s : ShareDriverState) (context snapshot : Nat)
    (share_server : Option Nat) : Except DriverError Unit :=
  Except.error DriverError.notImplementedError

/-- `ShareDriver.ensure_share`: abstract. -/
def ensure_share (s : ShareDriverState) (context share : Nat)
    (share_server : Option Nat) : Except DriverError Unit :=
  Except.error DriverError.notImplementedError

/-- `ShareDriver.allow_access`: abstract. -/
def allow_access (s : ShareDriverState) (context share access : Nat)
    (share_server : Option Nat) : Except DriverError Unit :=
  Except.error DriverError.notImplementedError

/-- `ShareDriver.deny_access`: abstract. -/
def deny_access (s : ShareDriverState) (context share access : Nat)
    (share_server : Option Nat) : Except DriverError Unit :=
  Except.error DriverError.notImplementedError

/-- `ShareDriver.get_network_allocations_number`: abstract in the base
class. -/
def get_network_allocations_number (s : ShareDriverState) :
    Except DriverError Nat :=
  Except.error DriverError.notImplementedError

/-- `ShareDriver.check_for_setup_error`: default no-op (`pass`). -/
def check_for_setup_error (s : ShareDriverState) : ShareDriverState × Unit :=
  (s, ())

/-- `ShareDriver.do_setup`: default no-op (`pass`). -/
def do_setup (s : ShareDriverState) (context : Nat) : ShareDriverState × Unit :=
  (s, ())

/-- `ShareDriver.setup_server`: default no-op (`pass`). -/
def setup_server (s : ShareDriverState) (network_info : Nat)
    (metadata : Option Nat) : ShareDriverState × Unit :=
  (s, ())

/-- `ShareDriver.teardown_server`: default no-op (`pass`). -/
def teardown_server (s : ShareDriverState) (server_details : Nat)
    (security_services : Option Nat) : ShareDriverState × Unit :=
  (s, ())

/-- `ShareDriver._update_share_status`: builds the stats dictionary.
`safe_get('share_backend_name')` is the configured option (`none` when
unset); Python `backend_name or 'Generic_NFS'` falls back also on the
empty string. -/
def update_share_status (configuration : Configuration) : Stats :=
  let backend_name := configuration.share_backend_name
  { share_backend_name :=
      match backend_name with
      | none => "Generic_NFS"
      | some v => if v = "" then "Generic_NFS" else v
    vendor_name := "Open Source"
    driver_version := "1.0"
    storage_protocol := none
    total_capacity_gb := "infinite"
    free_capacity_gb := "infinite"
    reserved_percentage := 0
    QoS_support := false }

/-- `ShareDriver.get_share_stats`: when `refresh` is true, first runs
`_update_share_status` (which assigns `self._stats`), then returns
`self._stats`; reading the attribute before it was ever assigned raises
`AttributeError`. -/
def get_share_stats (s : ShareDriverState) (refresh : Bool) :
    ShareDriverState × Except StatsError Stats :=
  let s' :=
    if refresh then { s with stats := some (update_share_status s.configuration) }
    else s
  (s',
    match s'.stats with
    | none => Except.error StatsError.attributeError
    | some st => Except.ok st)

/-- `ShareDriver.allocate_network` of a driver whose (overridden)
`get_network_allocations_number` returns
`get_network_allocations_number_value`: when `count` is `None` it is
derived from that hook; when the resulting count is falsy (zero) no call
is made to `network_api.allocate_network`, otherwise the call is
forwarded with `count` injected into the keyword payload. -/
def allocate_network {α β γ δ : Type} (s : ShareDriverState)
    (get_network_allocations_number_value : Nat) (context : α)
    (share_server : β) (share_network : γ) (count : Option Nat) :
    ShareDriverState × List (NetworkApiCall α β γ δ) :=
  let count :=
    match count with
    | none => get_network_allocations_number_value
    | some c => c
  (s,
    if count ≠ 0 then
      [NetworkApiCall.allocate context share_server share_network count]
    else [])

/-- `ShareDriver.deallocate_network` of a driver whose (overridden)
`get_network_allocations_number` returns
`get_network_allocations_number_value`: calls
`network_api.deallocate_network` only when that number is truthy. -/
def deallocate_network {α β γ δ : Type} (s : ShareDriverState)
    (get_network_allocations_number_value : Nat) (context : α)
    (share_server_id : δ) : ShareDriverState × List (NetworkApiCall α β γ δ) :=
  (s,
    if get_network_allocations_number_value ≠ 0 then
      [NetworkApiCall.deallocate context share_server_id]
    else [])

end ShareDriver

namespace ExecuteMixin

/-- Master lemma: when every invocation raises the transient
`ProcessExecutionError`, the loop starting at counter `tries < N` with
the top-level fuel invariant `fuel + tries = N` raises the final
transient error after the N-th invocation, sleeping `k ^ 2` for each
intermediate counter value `k = tries + 1, …, N - 1`. -/
theorem try_execute_go_all_transient (execute : Nat → Option Exc) (N : Nat)
    (hfail : ∀ i, execute i = some Exc.processExecutionError) :
    ∀ fuel tries, fuel + tries = N → tries < N →
      try_execute_go execute N fuel tries =
        ⟨Except.error Exc.processExecutionError, N,
          (List.range' (tries + 1) (N - (tries + 1))).map (fun k => k ^ 2)⟩ := by
  intro fuel
  induction fuel with
  | zero => intro tries h1 h2; omega
  | succ f ih =>
    intro tries h1 h2
    rw [try_execute_go, hfail tries]
    by_cases h : tries + 1 ≥ N
    · have hEq : tries + 1 = N := by omega
      have h0 : N - (tries + 1) = 0 := by omega
      simp [h, hEq, h0]
    · rw [if_neg h]
      simp only
      rw [ih (tries + 1) (by omega) (by omega)]
      have hsub : N - (tries + 1) = (N - (tries + 2)) + 1 := by omega
      rw [hsub, List.range'_succ]
      rfl

/-- Master lemma: when the invocations at counters `tries, …, K - 1`
raise the transient error and the invocation at counter `K` succeeds
(`K < N`), the loop returns `True` after invocation `K + 1`, sleeping
`k ^ 2` for each counter value `k = tries + 1, …, K`. -/
theorem try_execute_go_succeeds (execute : Nat → Option Exc) (N K : Nat)
    (hK : K < N)
    (hfailK : ∀ i, i < K → execute i = some Exc.processExecutionError)
    (hsucc : execute K = none) :
    ∀ fuel tries, fuel + tries = N → tries ≤ K →
      try_execute_go execute N fuel tries =
        ⟨Except.ok true, K + 1,
          (List.range' (tries + 1) (K - tries)).map (fun k => k ^ 2)⟩ := by
  intro fuel
  induction fuel with
  | zero => intro tries h1 h2; omega
  | succ f ih =>
    intro tries h1 h2
    by_cases htk : tries = K
    · subst htk
      rw [try_execute_go, hsucc]
      simp
    · have hlt : tries < K := by omega
      rw [try_execute_go, hfailK tries hlt]
      rw [if_neg (by omega)]
      simp only
      rw [ih (tries + 1) (by omega) (by omega)]
      have hsub : K - tries = (K - (tries + 1)) + 1 := by omega
      rw [hsub, List.range'_succ]
      rfl

end ExecuteMixin

/-- Claim C1: for `num_shell_tries = N` (N ≥ 1), if `_execute` raises the
transient `ProcessExecutionError` on every invocation, `_try_execute`
invokes it exactly N times and propagates the final failure; if it fails
transiently exactly K < N times and then succeeds, `_try_execute`
returns success after exactly K + 1 invocations. -/
theorem c1_retry_bound (conf : Configuration) (execAll execK : Nat → Option Exc)
    (K : Nat) (hN : 1 ≤ conf.num_shell_tries)
    (hAll : ∀ i, execAll i = some Exc.processExecutionError)
    (hK : K < conf.num_shell_tries)
    (hKfail : ∀ i, i < K → execK i = some Exc.processExecutionError)
    (hKsucc : execK K = none) :
    ((ExecuteMixin.try_execute conf execAll).result =
        Except.error Exc.processExecutionError ∧
      (ExecuteMixin.try_execute conf execAll).invocations =
        conf.num_shell_tries) ∧
    ((ExecuteMixin.try_execute conf execK).result = Except.ok true ∧
      (ExecuteMixin.try_execute conf execK).invocations = K + 1) := by
  unfold ExecuteMixin.try_execute
  rw [ExecuteMixin.try_execute_go_all_transient execAll conf.num_shell_tries
        hAll conf.num_shell_tries 0 (by omega) (by omega),
      ExecuteMixin.try_execute_go_succeeds execK conf.num_shell_tries K hK
        hKfail hKsucc conf.num_shell_tries 0 (by omega) (by omega)]
  exact ⟨⟨rfl, rfl⟩, rfl, rfl⟩

/-- Configuration with `num_shell_tries = 3` used as concrete input. -/
def confW : Configuration := ⟨3, 0, none, none⟩

/-- Concrete `_execute` raising the transient error on every invocation. -/
def execAllFailW : Nat → Option Exc := fun _ => some Exc.processExecutionError

/-- Concrete `_execute` raising the transient error once then succeeding. -/
def execOneFailW : Nat → Option Exc := fun i =>
  if i < 1 then some Exc.processExecutionError else none

theorem c1_retry_bound_witness :
    ((ExecuteMixin.try_execute confW execAllFailW).result =
        Except.error Exc.processExecutionError ∧
      (ExecuteMixin.try_execute confW execAllFailW).invocations =
        confW.num_shell_tries) ∧
    ((ExecuteMixin.try_execute confW execOneFailW).result = Except.ok true ∧
      (ExecuteMixin.try_execute confW execOneFailW).invocations = 1 + 1) :=
  c1_retry_bound confW execAllFailW execOneFailW 1 (by decide)
    (fun i => rfl) (by decide)
    (fun i hi => by
      have h0 : i = 0 := by omega
      subst h0
      rfl)
    rfl

/-- Claim C2: under persistent transient failures, the sleep before retry
attempt n (1-indexed after the first failure) is n ^ 2, hence strictly
increasing in n; with `num_shell_tries = 3` the sleeps are exactly 1
then 4. -/
theorem c2_backoff_squares (conf : Configuration) (execute : Nat → Option Exc)
    (hN : 1 ≤ conf.num_shell_tries)
    (hfail : ∀ i, execute i = some Exc.processExecutionError) :
    ((ExecuteMixin.try_execute conf execute).sleeps =
        (List.range' 1 (conf.num_shell_tries - 1)).map (fun k => k ^ 2)) ∧
    (∀ n, ∀ h : n < (ExecuteMixin.try_execute conf execute).sleeps.length,
        (ExecuteMixin.try_execute conf execute).sleeps.get ⟨n, h⟩ =
          (n + 1) ^ 2) ∧
    (∀ m n, ∀ hm : m < (ExecuteMixin.try_execute conf execute).sleeps.length,
        ∀ hn : n < (ExecuteMixin.try_execute conf execute).sleeps.length,
        m < n →
        (ExecuteMixin.try_execute conf execute).sleeps.get ⟨m, hm⟩ <
          (ExecuteMixin.try_execute conf execute).sleeps.get ⟨n, hn⟩) ∧
    (conf.num_shell_tries = 3 →
        (ExecuteMixin.try_execute conf execute).sleeps = [1, 4]) := by
  have hS : (ExecuteMixin.try_execute conf execute).sleeps =
      (List.range' 1 (conf.num_shell_tries - 1)).map (fun k => k ^ 2) := by
    unfold ExecuteMixin.try_execute
    rw [ExecuteMixin.try_execute_go_all_transient execute conf.num_shell_tries
          hfail conf.num_shell_tries 0 (by omega) (by omega)]
  have hget : ∀ n, ∀ h : n < (ExecuteMixin.try_execute conf execute).sleeps.length,
      (ExecuteMixin.try_execute conf execute).sleeps.get ⟨n, h⟩ = (n + 1) ^ 2 := by
    rw [hS]
    intro n h
    have hn : n < (List.range' 1 (conf.num_shell_tries - 1)).length := by
      simpa using h
    rw [List.get_eq_getElem, List.getElem_map, List.getElem_range'_1]
    ring
  refine ⟨hS, hget, ?_, ?_⟩
  · intro m n hm hn hmn
    rw [hget m hm, hget n hn]
    exact Nat.pow_lt_pow_left (by omega) (by decide)
  · intro h3
    rw [hS, h3]
    rfl

theorem c2_backoff_squares_witness :
    (ExecuteMixin.try_execute confW execAllFailW).sleeps = [1, 4] :=
  (c2_backoff_squares confW execAllFailW (by decide) (fun i => rfl)).2.2.2 rfl

/-- Helper: any non-transient exception raised by the invocation at the
current counter propagates immediately, with no sleep. -/
theorem try_execute_go_nontransient (execute : Nat → Option Exc)
    (N fuel tries : Nat) (name : String)
    (h : execute tries = some (Exc.other name)) :
    ExecuteMixin.try_execute_go execute N fuel tries =
      ⟨Except.error (Exc.other name), tries + 1, []⟩ := by
  cases fuel <;> rw [ExecuteMixin.try_execute_go, h]

/-- Claim C3: if `_execute` raises any exception class other than
`ProcessExecutionError` on the first invocation, `_try_execute` invokes
it exactly once, performs no sleep, and propagates that failure,
regardless of `num_shell_tries`. -/
theorem c3_no_retry_nontransient (conf : Configuration) (name : String)
    (execute : Nat → Option Exc)
    (h0 : execute 0 = some (Exc.other name)) :
    (ExecuteMixin.try_execute conf execute).result =
      Except.error (Exc.other name) ∧
    (ExecuteMixin.try_execute conf execute).invocations = 1 ∧
    (ExecuteMixin.try_execute conf execute).sleeps = [] := by
  unfold ExecuteMixin.try_execute
  rw [try_execute_go_nontransient execute conf.num_shell_tries
        conf.num_shell_tries 0 name h0]
  exact ⟨rfl, rfl, rfl⟩

/-- Concrete `_execute` raising a non-transient exception class. -/
def execValueErrorW : Nat → Option Exc := fun _ => some (Exc.other "ValueError")

theorem c3_no_retry_nontransient_witness :
    (ExecuteMixin.try_execute confW execValueErrorW).result =
      Except.error (Exc.other "ValueError") ∧
    (ExecuteMixin.try_execute confW execValueErrorW).invocations = 1 ∧
    (ExecuteMixin.try_execute confW execValueErrorW).sleeps = [] :=
  c3_no_retry_nontransient confW "ValueError" execValueErrorW rfl

/-- Claim C4: for a driver whose `get_network_allocations_number` returns
0, `allocate_network` (with `count` unspecified) and
`deallocate_network` make no call to the external network allocation
service and leave the driver state unchanged. -/
theorem c4_zero_allocations_no_calls {α β γ δ : Type} (s : ShareDriverState)
    (context : α) (share_server : β) (share_network : γ)
    (share_server_id : δ) :
    @ShareDriver.allocate_network α β γ δ s 0 context share_server
        share_network none = (s, []) ∧
    @ShareDriver.deallocate_network α β γ δ s 0 context share_server_id =
      (s, []) := by
  constructor <;> rfl

/-- Claim C5: for a driver whose `get_network_allocations_number` returns
a non-zero `n`, `allocate_network` without an explicit count forwards
exactly one call to the external network allocation service, with
`count = n` injected into the keyword payload and `context`,
`share_server`, `share_network` passed through unchanged. -/
theorem c5_count_propagation {α β γ δ : Type} (s : ShareDriverState)
    (n : Nat) (hn : n ≠ 0) (context : α) (share_server : β)
    (share_network : γ) :
    @ShareDriver.allocate_network α β γ δ s n context share_server
        share_network none =
      (s, [NetworkApiCall.allocate context share_server share_network n]) := by
  simp [ShareDriver.allocate_network, hn]

theorem c5_count_propagation_witness :
    @ShareDriver.allocate_network Nat Nat Nat Nat (ShareDriver.init confW) 3
        10 20 30 none =
      (ShareDriver.init confW, [NetworkApiCall.allocate 10 20 30 3]) :=
  c5_count_propagation (ShareDriver.init confW) 3 (by decide) 10 20 30

/-- Claim C6: `get_share_stats(refresh=True)` on a driver with no
configured `share_backend_name` returns the snapshot with backend name
`Generic_NFS`, infinite capacities, `QoS_support = False`, vendor
`Open Source`, driver version `1.0`, and `storage_protocol` unset. -/
theorem c6_stats_defaults (conf : Configuration)
    (h : conf.share_backend_name = none) :
    (ShareDriver.get_share_stats (ShareDriver.init conf) true).2 =
      Except.ok
        { share_backend_name := "Generic_NFS"
          vendor_name := "Open Source"
          driver_version := "1.0"
          storage_protocol := none
          total_capacity_gb := "infinite"
          free_capacity_gb := "infinite"
          reserved_percentage := 0
          QoS_support := false } := by
  simp [ShareDriver.get_share_stats, ShareDriver.init,
    ShareDriver.update_share_status, h]

theorem c6_stats_defaults_witness :
    (ShareDriver.get_share_stats (ShareDriver.init confW) true).2 =
      Except.ok
        { share_backend_name := "Generic_NFS"
          vendor_name := "Open Source"
          driver_version := "1.0"
          storage_protocol := none
          total_capacity_gb := "infinite"
          free_capacity_gb := "infinite"
          reserved_percentage := 0
          QoS_support := false } :=
  c6_stats_defaults confW rfl

/-- Claim C7: each abstract operation of the base `ShareDriver`
(`create_share`, `create_share_from_snapshot`, `create_snapshot`,
`delete_share`, `delete_snapshot`, `ensure_share`, `allow_access`,
`deny_access`, `get_network_allocations_number`) fails with
`NotImplementedError` for all argument values. -/
theorem c7_abstract_not_implemented (s : ShareDriverState)
    (context share snapshot access : Nat) (share_server : Option Nat) :
    ShareDriver.create_share s context share share_server =
        Except.error DriverError.notImplementedError ∧
    ShareDriver.create_share_from_snapshot s context share snapshot
        share_server = Except.error DriverError.notImplementedError ∧
    ShareDriver.create_snapshot s context snapshot share_server =
        Except.error DriverError.notImplementedError ∧
    ShareDriver.delete_share s context share share_server =
        Except.error DriverError.notImplementedError ∧
    ShareDriver.delete_snapshot s context snapshot share_server =
        Except.error DriverError.notImplementedError ∧
    ShareDriver.ensure_share s context share share_server =
        Except.error DriverError.notImplementedError ∧
    ShareDriver.allow_access s context share access share_server =
        Except.error DriverError.notImplementedError ∧
    ShareDriver.deny_access s context share access share_server =
        Except.error DriverError.notImplementedError ∧
    ShareDriver.get_network_allocations_number s =
        Except.error DriverError.notImplementedError :=
  ⟨rfl, rfl, rfl, rfl, rfl, rfl, rfl, rfl, rfl⟩

/-- Claim C8: the `_stats` snapshot is mutated only by
`_update_share_status`: two consecutive `get_share_stats(refresh=False)`
calls return the identical snapshot, and `allocate_network`,
`deallocate_network`, `setup_server`, `teardown_server`, `do_setup`,
`check_for_setup_error` all leave the driver state (hence `_stats`)
unchanged. -/
theorem c8_stats_frame {α β γ δ : Type} (s : ShareDriverState)
    (g : Nat) (context : α) (share_server : β) (share_network : γ)
    (share_server_id : δ) (count : Option Nat)
    (ctx network_info server_details : Nat)
    (metadata security_services : Option Nat) :
    (ShareDriver.get_share_stats s false).2 =
        (ShareDriver.get_share_stats
          (ShareDriver.get_share_stats s false).1 false).2 ∧
    (ShareDriver.get_share_stats s false).1 = s ∧
    (@ShareDriver.allocate_network α β γ δ s g context share_server
        share_network count).1 = s ∧
    (@ShareDriver.deallocate_network α β γ δ s g context
        share_server_id).1 = s ∧
    (ShareDriver.setup_server s network_info metadata).1 = s ∧
    (ShareDriver.teardown_server s server_details security_services).1 = s ∧
    (ShareDriver.do_setup s ctx).1 = s ∧
    (ShareDriver.check_for_setup_error s).1 = s :=
  ⟨rfl, rfl, rfl, rfl, rfl, rfl, rfl, rfl⟩

/-- Claim C9: on a freshly constructed `ShareDriver` (no refresh yet),
`get_share_stats(refresh=False)` does not return a snapshot: `__init__`
never assigned `_stats`, so the read fails with an
attribute-error-class failure. -/
theorem c9_uninitialized_stats_read (conf : Configuration) :
    (ShareDriver.get_share_stats (ShareDriver.init conf) false).2 =
      Except.error StatsError.attributeError :=
  rfl

/-- Claim C10: the snapshot built by `_update_share_status` (and returned
by `get_share_stats(refresh=True)`) has `reserved_percentage = 0` for
every configuration; the configured `reserved_share_percentage` is never
read by the refresh routine. -/
theorem c10_reserved_percentage_constant (conf : Configuration) (p : Int)
    (st : Option Stats) :
    (ShareDriver.update_share_status conf).reserved_percentage = 0 ∧
    ShareDriver.update_share_status
        { conf with reserved_share_percentage := p } =
      ShareDriver.update_share_status conf ∧
    (ShareDriver.get_share_stats ⟨conf, st⟩ true).2 =
      Except.ok (ShareDriver.update_share_status conf) :=
  ⟨rfl, rfl, rfl⟩
